import Mathlib

/-!
Verification of the sequence-windowing and normalization pipeline of the
`DataLoader` class (data-loader module of the repository).  Numbers are
modelled as rationals (`ℚ`): the JavaScript source computes with IEEE
doubles, and every algebraic claim of the specification is stated at the
level of exact arithmetic.  The mutable `this` object of the class is
modelled by explicit state passing: a method that writes to a field of
`this` returns the updated `DataLoader` value, and a method that throws
returns `Except JsError`.
-/

namespace DataLoaderModel

/-- Normalization parameters stored per column by `normalizeArray`:
the object `{ min, max, range }` of the source. -/
structure NormParams where
  min : ℚ
  max : ℚ
  range : ℚ
  deriving DecidableEq, Repr

/-- The `this.normalizationParams` object: a map from column name to
parameters, modelled as an association list where the most recent write
is the head (so `List.lookup` sees the latest value, like a JS object). -/
abbrev ParamsMap := List (String × NormParams)

/-- One data row: a mapping from column name to numeric value.  The JS
rows are objects; the claims only read numeric fields, so values are
rationals and a missing key reads as the default `0`. -/
abbrev Row := List (String × ℚ)

/-- The errors thrown by the `DataLoader` methods.  `noDataLoaded` is the
`No data loaded` Error, `parameterNotFound` is the
`Normalization parameters not found` Error, and `typeError` is
the implicit JavaScript TypeError raised when a property of `undefined`
is read (as in `getLatestWindow` when `params` is `undefined`). -/
inductive JsError where
  | noDataLoaded : JsError
  | parameterNotFound : String → JsError
  | typeError : JsError
  deriving DecidableEq, Repr

/-- Math.min over a spread array, for the non-empty arrays the pipeline
produces (the JS value on an empty array would be `Infinity`; every call
site is guarded by a non-empty `this.data`, so the default `0` of the
empty case is never reached). -/
def listMin : List ℚ → ℚ
  | [] => 0
  | x :: xs => xs.foldl min x

/-- Math.max over a spread array; see `listMin` for the empty case. -/
def listMax : List ℚ → ℚ
  | [] => 0
  | x :: xs => xs.foldl max x

/-- The JavaScript expression `x || 1`, used on `max - min`: a zero range
is replaced by `1`. -/
def jsOr1 (x : ℚ) : ℚ := if x = 0 then 1 else x

/-- The method `normalizeArray(array, name)`: computes `min` and `max` of
the array, stores `{ min, max, range: max - min || 1 }` under `name` in
the parameter map, and returns the array mapped through
`(val - min) / (max - min || 1)`.  Result: updated map and normalized
array. -/
def normalizeArray (params : ParamsMap) (array : List ℚ) (name : String) :
    ParamsMap × List ℚ :=
  let mn := listMin array
  let mx := listMax array
  ((name, ⟨mn, mx, jsOr1 (mx - mn)⟩) :: params,
    array.map (fun val => (val - mn) / jsOr1 (mx - mn)))

/-- The method `normalizeFeatures(features)`: normalizes each feature
array under the key `feature_<index>`, threading the parameter map left
to right (the JS `map` callback mutates `this.normalizationParams` per
element). -/
def normalizeFeaturesAux (params : ParamsMap) (features : List (List ℚ))
    (index : Nat) : ParamsMap × List (List ℚ) :=
  match features with
  | [] => (params, [])
  | a :: rest =>
    let r1 := normalizeArray params a ("feature_" ++ toString index)
    let r2 := normalizeFeaturesAux r1.1 rest (index + 1)
    (r2.1, r1.2 :: r2.2)

/-- The method `denormalizeArray(normalizedArray, name)`: throws the
`parameterNotFound` error when `name` was never normalized, otherwise
maps `val * params.range + params.min` over the array. -/
def denormalizeArray (params : ParamsMap) (normalizedArray : List ℚ)
    (name : String) : Except JsError (List ℚ) :=
  match params.lookup name with
  | none => .error (.parameterNotFound name)
  | some p => .ok (normalizedArray.map (fun val => val * p.range + p.min))

/-- The `totalSamples` count of `createMultiDaySequences`:
`normalizedTarget.length - sequenceLength - forecastDays + 1`, computed
in ℤ because it may be negative (in which case the `for` loop runs zero
times). -/
def totalSamples (n seqLen forecast : Nat) : Int :=
  (n : Int) - seqLen - forecast + 1

/-- The windows built by the `for` loop of `createMultiDaySequences`:
window `i` has `sequenceLength` time steps, and time step `j` is the
vector of `feature[i + j]` over the feature arrays, in feature order. -/
def allSequences (normalizedFeatures : List (List ℚ))
    (normalizedTarget : List ℚ) (seqLen forecast : Nat) :
    List (List (List ℚ)) :=
  (List.range (totalSamples normalizedTarget.length seqLen forecast).toNat).map
    (fun i => (List.range seqLen).map
      (fun j => normalizedFeatures.map (fun feature => feature.getD (i + j) 0)))

/-- The targets built by the same loop:
`normalizedTarget.slice(i + sequenceLength, i + sequenceLength + forecastDays)`. -/
def allTargets (normalizedTarget : List ℚ) (seqLen forecast : Nat) :
    List (List ℚ) :=
  (List.range (totalSamples normalizedTarget.length seqLen forecast).toNat).map
    (fun i => (normalizedTarget.drop (i + seqLen)).take forecast)

/-- The state of the `DataLoader` instance: `this.data` (null before any
load), the feature column list, the target column name, the window and
forecast parameters, the train/test ratio and the parameter map. -/
structure DataLoader where
  data : Option (List Row)
  featureColumns : List String
  targetColumn : String
  sequenceLength : Nat
  forecastDays : Nat
  trainTestSplit : ℚ
  normalizationParams : ParamsMap
  deriving DecidableEq, Repr

/-- The object returned by `createMultiDaySequences`.  The tensors
`tf.tensor3d` / `tf.tensor2d` are kept as the nested lists handed to the
tensor constructors. -/
structure Dataset where
  X_train : List (List (List ℚ))
  y_train : List (List ℚ)
  X_test : List (List (List ℚ))
  y_test : List (List ℚ)
  featureNames : List String
  sequenceLength : Nat
  forecastDays : Nat
  deriving DecidableEq, Repr

/-- The method `createMultiDaySequences(normalizedFeatures,
normalizedTarget)`: builds the parallel window and target sequences,
computes `splitIndex = Math.floor(sequences.length * this.trainTestSplit)`
and splits both sequences into prefix (train) and suffix (test). -/
def createMultiDaySequences (dl : DataLoader)
    (normalizedFeatures : List (List ℚ)) (normalizedTarget : List ℚ) :
    Dataset :=
  let sequences :=
    allSequences normalizedFeatures normalizedTarget dl.sequenceLength dl.forecastDays
  let targets := allTargets normalizedTarget dl.sequenceLength dl.forecastDays
  let splitIndex := (Int.floor ((sequences.length : ℚ) * dl.trainTestSplit)).toNat
  { X_train := sequences.take splitIndex
    y_train := targets.take splitIndex
    X_test := sequences.drop splitIndex
    y_test := targets.drop splitIndex
    featureNames := dl.featureColumns
    sequenceLength := dl.sequenceLength
    forecastDays := dl.forecastDays }

/-- The method `preprocessData()`: throws `noDataLoaded` when `this.data`
is null or empty; otherwise extracts the feature and target columns,
normalizes the features (keys `feature_<i>`) and then the target (key
`target`), and builds the dataset.  The updated state (new parameter map)
is returned alongside the dataset. -/
def preprocessData (dl : DataLoader) : Except JsError (DataLoader × Dataset) :=
  match dl.data with
  | none => .error .noDataLoaded
  | some rows =>
    if rows.isEmpty then .error .noDataLoaded
    else
      let features := dl.featureColumns.map
        (fun col => rows.map (fun row => (row.lookup col).getD 0))
      let target := rows.map (fun row => (row.lookup dl.targetColumn).getD 0)
      let fres := normalizeFeaturesAux dl.normalizationParams features 0
      let tres := normalizeArray fres.1 target ("target")
      let dl2 := { dl with normalizationParams := tres.1 }
      .ok (dl2, createMultiDaySequences dl2 fres.2 tres.2)

/-- The JavaScript slice `arr.slice(-n)` (last `n` elements; the whole
array when `n = 0`, because `slice(-0)` is `slice(0)`, or when
`n ≥ arr.length`). -/
def jsSliceLast (l : List Row) (n : Nat) : List Row :=
  if n = 0 then l else l.drop (l.length - n)

/-- The normalization step of `getLatestWindow`: each feature array is
mapped through `(val - params.min) / params.range` where `params` is the
stored entry for `feature_<index>`.  When that entry is absent, `params`
is `undefined` and the first callback invocation raises a TypeError
(reading `.min` of `undefined`); with an empty feature array the callback
never runs and no error is raised. -/
def normalizeLatest (params : ParamsMap) (features : List (List ℚ))
    (index : Nat) : Except JsError (List (List ℚ)) :=
  match features with
  | [] => .ok []
  | a :: rest =>
    match params.lookup ("feature_" ++ toString index) with
    | some p =>
      match normalizeLatest params rest (index + 1) with
      | .ok out => .ok (a.map (fun val => (val - p.min) / p.range) :: out)
      | .error e => .error e
    | none =>
      match a with
      | [] =>
        match normalizeLatest params rest (index + 1) with
        | .ok out => .ok ([] :: out)
        | .error e => .error e
      | _ :: _ => .error .typeError

/-- The method `getLatestWindow()`: throws `noDataLoaded` on null or
empty data; otherwise takes the last `sequenceLength` rows of each
feature column, normalizes them with the stored parameters
(`normalizeLatest`) and assembles one window of `sequenceLength` time
steps.  The method never writes to any field of `this`, so the returned
state is the input state unchanged. -/
def getLatestWindow (dl : DataLoader) :
    Except JsError (DataLoader × List (List ℚ)) :=
  match dl.data with
  | none => .error .noDataLoaded
  | some rows =>
    if rows.isEmpty then .error .noDataLoaded
    else
      let latestFeatures := dl.featureColumns.map
        (fun col => (jsSliceLast rows dl.sequenceLength).map
          (fun row => (row.lookup col).getD 0))
      match normalizeLatest dl.normalizationParams latestFeatures 0 with
      | .error e => .error e
      | .ok normalizedFeatures =>
        .ok (dl, (List.range dl.sequenceLength).map
          (fun i => normalizedFeatures.map (fun feature => feature.getD i 0)))

/-- The statistics object returned by `getStats`.  The JS method formats
the numbers with `toFixed` and reports `Math.sqrt` of the mean squared
return as `volatility`; string formatting is display-only and the square
root is irrational, so the underlying rational values are kept (the
volatility as its square, scaled by `100^2`). -/
structure Stats where
  totalDays : Nat
  minPrice : ℚ
  maxPrice : ℚ
  meanPrice : ℚ
  meanReturn : ℚ
  volatilitySq : ℚ
  featureCount : Nat
  features : List String
  deriving DecidableEq, Repr

/-- The method `getStats()`: returns `null` (here `none`) when
`this.data` is null or empty — it does not throw — and otherwise the
statistics of the target column. -/
def getStats (dl : DataLoader) : Option Stats :=
  match dl.data with
  | none => none
  | some rows =>
    if rows.isEmpty then none
    else
      let targetValues := rows.map (fun row => (row.lookup dl.targetColumn).getD 0)
      let returns := (List.range (targetValues.length - 1)).map
        (fun i => (targetValues.getD (i + 1) 0 - targetValues.getD i 0) /
          targetValues.getD i 0)
      some
        { totalDays := rows.length
          minPrice := listMin targetValues
          maxPrice := listMax targetValues
          meanPrice := targetValues.sum / (targetValues.length : ℚ)
          meanReturn := returns.sum / (returns.length : ℚ) * 100
          volatilitySq := (returns.map (fun n => n * n)).sum / (returns.length : ℚ) * 10000
          featureCount := dl.featureColumns.length
          features := dl.featureColumns }

/-- A row of the single-column branch of `parseCSV`: the object
`Close`/`Date` object with value and `Day i` placeholder date. -/
structure PriceRow where
  close : ℚ
  date : String
  deriving DecidableEq, Repr

/-- The single-column branch of `parseCSV`: the data lines are
`lines[1..]`; line `i` (1-based, counting dropped lines too) contributes
a row exactly when `parseFloat` of the line succeeds (`some`, modelling
`!isNaN`) with a value strictly greater than 0.  The numeric
interpretation of each line is taken as input (`Option ℚ`), abstracting
`parseFloat`. -/
def parseSingleColumnRows (parsedLines : List (Option ℚ)) : List PriceRow :=
  (parsedLines.enumFrom 1).filterMap (fun p =>
    match p.2 with
    | some value =>
      if 0 < value then some ⟨value, "Day " ++ toString p.1⟩ else none
    | none => none)

/-! ### Shared example values -/

/-- The example series `[1, …, 10]` of the specification. -/
def exT : List ℚ := [1, 2, 3, 4, 5, 6, 7, 8, 9, 10]

/-- The example feature list with the series as its only feature. -/
def exF : List (List ℚ) := [exT]

/-- A loaded state with the example series, `lookback = 3`,
`horizon = 2`, `trainRatio = 0.8`. -/
def exDL4 : DataLoader :=
  ⟨some (exT.map (fun v => [(("Close"), v)])), [("Close")], ("Close"), 3, 2, 4/5, []⟩

/-- A five-row series, far shorter than the default `lookback = 60`,
`horizon = 5`. -/
def exRows : List Row :=
  [[(("Close"), 1)], [(("Close"), 2)], [(("Close"), 3)], [(("Close"), 4)], [(("Close"), 5)]]

/-- The short-series state of the specification example `N = 5`,
`lookback = 60`. -/
def exShort : DataLoader :=
  ⟨some exRows, [("Close")], ("Close"), 60, 5, 4/5, []⟩

/-- A state whose recorded parameters (`min 0`, `max 1`) come from an
earlier, smaller series: the current two rows `11` and `21` lie far
outside the recorded range. -/
def exDL6 : DataLoader :=
  ⟨some [[(("Close"), 11)], [(("Close"), 21)]], [("Close")], ("Close"), 2, 1, 4/5,
    [(("feature_0"), ⟨0, 1, 1⟩)]⟩

/-- A loaded one-row state on which `normalize` was never called: the
parameter map is empty. -/
def exDL7 : DataLoader :=
  ⟨some [[(("Close"), 5)]], [("Close")], ("Close"), 1, 1, 4/5, []⟩

/-- A state whose row sequence is loaded but empty. -/
def exEmpty : DataLoader :=
  ⟨some [], [("Close")], ("Close"), 60, 5, 4/5, []⟩

/-- A loaded two-row state with target values `1` and `3`. -/
def exDL9 : DataLoader :=
  ⟨some [[(("Close"), 1)], [(("Close"), 3)]], [("Close")], ("Close"), 1, 1, 4/5, []⟩

/-! ### Helper lemmas -/

/-- The substituted range is never zero, so normalization divides by a
non-zero quantity. -/
theorem jsOr1_ne_zero (x : ℚ) : jsOr1 x ≠ 0 := by
  unfold jsOr1
  split
  · norm_num
  · assumption

/-- A contiguous slice written as an explicit map over offsets. -/
theorem drop_take_eq_map_range (l : List ℚ) (m h : Nat) (hmh : m + h ≤ l.length) :
    (l.drop m).take h = (List.range h).map (fun k => l.getD (m + k) 0) := by
  apply List.ext_getElem
  · simp
    omega
  · intro k h1 h2
    have hk : k < h := by simpa using h2
    simp only [List.getElem_take, List.getElem_drop, List.getElem_map, List.getElem_range]
    rw [List.getD_eq_getElem?_getD, List.getElem?_eq_getElem (show m + k < l.length by omega)]
    simp

/-- Folding `min` over a constant list returns the constant. -/
theorem foldl_min_replicate (n : Nat) (c : ℚ) :
    (List.replicate n c).foldl min c = c := by
  induction n with
  | zero => rfl
  | succ k ih => simpa [List.replicate_succ] using ih

/-- Folding `max` over a constant list returns the constant. -/
theorem foldl_max_replicate (n : Nat) (c : ℚ) :
    (List.replicate n c).foldl max c = c := by
  induction n with
  | zero => rfl
  | succ k ih => simpa [List.replicate_succ] using ih

/-! ### C1: count and shape of the window/target pairs -/

/-- C1: for a source series of length `N` and parameters `lookback = L`,
`horizon = H`, the window-building step produces exactly
`max (N - L - H + 1) 0` windows, the target sequence is parallel (same
length), every window has exactly `L` time-steps, and every target
vector has exactly `H` values. -/
theorem c1_window_counts (nf : List (List ℚ)) (nt : List ℚ) (L H : Nat) :
    ((allSequences nf nt L H).length : Int) = max ((nt.length : Int) - L - H + 1) 0
    ∧ (allTargets nt L H).length = (allSequences nf nt L H).length
    ∧ (∀ w ∈ allSequences nf nt L H, w.length = L)
    ∧ (∀ t ∈ allTargets nt L H, t.length = H) := by
  refine ⟨?_, ?_, ?_, ?_⟩
  · simp [allSequences, totalSamples, Int.toNat_eq_max]
  · simp [allSequences, allTargets]
  · intro w hw
    simp only [allSequences, List.mem_map, List.mem_range] at hw
    obtain ⟨i, _, rfl⟩ := hw
    simp
  · intro t ht
    simp only [allTargets, totalSamples, List.mem_map, List.mem_range] at ht
    obtain ⟨i, hi, rfl⟩ := ht
    simp only [List.length_take, List.length_drop]
    omega

/-- Witness for C1 on the specification example: series `[1..10]`,
`L = 3`, `H = 2` gives count `6 = max (10 - 3 - 2 + 1) 0`, a window of
3 time-steps and a target of 2 values. -/
theorem c1_window_counts_witness :
    ((allSequences exF exT 3 2).length : Int) = max ((exT.length : Int) - 3 - 2 + 1) 0
    ∧ ((List.range 3).map (fun j => exF.map (fun f => f.getD (0 + j) 0))).length = 3
    ∧ ((exT.drop (0 + 3)).take 2).length = 2 :=
  ⟨(c1_window_counts exF exT 3 2).1,
   (c1_window_counts exF exT 3 2).2.2.1 _ (by decide),
   (c1_window_counts exF exT 3 2).2.2.2 _ (by decide)⟩

/-! ### C3: content of each window and target -/

/-- C3: for every valid starting offset `i`, time-step `j` of window `i`
holds the per-feature values at row `i + j` in feature order, and target
`i` holds the `H` target values at rows `i + L .. i + L + H - 1`. -/
theorem c3_window_content (nf : List (List ℚ)) (nt : List ℚ) (L H i j : Nat)
    (hi : i < (totalSamples nt.length L H).toNat) (hj : j < L) :
    ((allSequences nf nt L H).getD i []).getD j []
        = nf.map (fun f => f.getD (i + j) 0)
    ∧ (allTargets nt L H).getD i []
        = (List.range H).map (fun k => nt.getD (i + L + k) 0) := by
  have h1 : i < (allSequences nf nt L H).length := by simpa [allSequences] using hi
  have h2 : i < (allTargets nt L H).length := by simpa [allTargets] using hi
  constructor
  · have hs : (allSequences nf nt L H).getD i []
        = (List.range L).map (fun j => nf.map (fun f => f.getD (i + j) 0)) := by
      rw [List.getD_eq_getElem?_getD, List.getElem?_eq_getElem h1]
      simp [allSequences]
    rw [hs, List.getD_eq_getElem?_getD, List.getElem?_eq_getElem (by simpa using hj)]
    simp
  · have ht : (allTargets nt L H).getD i [] = (nt.drop (i + L)).take H := by
      rw [List.getD_eq_getElem?_getD, List.getElem?_eq_getElem h2]
      simp [allTargets]
    rw [ht]
    apply drop_take_eq_map_range
    simp only [totalSamples] at hi
    omega

/-- Witness for C3 on the specification example: window 5 of the series
`[1..10]` with `L = 3`, `H = 2` is rows `[6,7,8]` with target `[9,10]`,
and window 0 has target `[4,5]`. -/
theorem c3_window_content_witness :
    (((allSequences exF exT 3 2).getD 5 []).getD 0 []
        = exF.map (fun f => f.getD (5 + 0) 0)
      ∧ (allTargets exT 3 2).getD 5 []
        = (List.range 2).map (fun k => exT.getD (5 + 3 + k) 0))
    ∧ (allSequences exF exT 3 2).getD 5 [] = [[6], [7], [8]]
    ∧ (allTargets exT 3 2).getD 5 [] = [9, 10]
    ∧ (allTargets exT 3 2).getD 0 [] = [4, 5] :=
  ⟨c3_window_content exF exT 3 2 5 0 (by decide) (by decide),
   by decide, by decide, by decide⟩

/-! ### C4: chronological train/test split -/

/-- C4: the split takes the train set as the prefix of length
`floor (count * trainRatio)` and the test set as the suffix, with no
shuffling: concatenating train and test reproduces the full window and
target sequences in original order. -/
theorem c4_split (dl : DataLoader) (nf : List (List ℚ)) (nt : List ℚ)
    (h0 : 0 ≤ dl.trainTestSplit) (h1 : dl.trainTestSplit ≤ 1) :
    (createMultiDaySequences dl nf nt).X_train ++ (createMultiDaySequences dl nf nt).X_test
        = allSequences nf nt dl.sequenceLength dl.forecastDays
    ∧ (createMultiDaySequences dl nf nt).y_train ++ (createMultiDaySequences dl nf nt).y_test
        = allTargets nt dl.sequenceLength dl.forecastDays
    ∧ ((createMultiDaySequences dl nf nt).X_train.length : Int)
        = Int.floor (((allSequences nf nt dl.sequenceLength dl.forecastDays).length : ℚ)
            * dl.trainTestSplit) := by
  refine ⟨List.take_append_drop _ _, List.take_append_drop _ _, ?_⟩
  simp only [createMultiDaySequences, List.length_take]
  have hnn : (0 : ℚ) ≤ ((allSequences nf nt dl.sequenceLength dl.forecastDays).length : ℚ)
      * dl.trainTestSplit :=
    mul_nonneg (Nat.cast_nonneg _) h0
  have hfl : 0 ≤ Int.floor (((allSequences nf nt dl.sequenceLength dl.forecastDays).length : ℚ)
      * dl.trainTestSplit) :=
    Int.floor_nonneg.mpr hnn
  have hle : Int.floor (((allSequences nf nt dl.sequenceLength dl.forecastDays).length : ℚ)
      * dl.trainTestSplit) ≤ (allSequences nf nt dl.sequenceLength dl.forecastDays).length := by
    calc Int.floor (((allSequences nf nt dl.sequenceLength dl.forecastDays).length : ℚ)
          * dl.trainTestSplit)
        ≤ Int.floor (((allSequences nf nt dl.sequenceLength dl.forecastDays).length : ℚ)) :=
          Int.floor_mono (mul_le_of_le_one_right (Nat.cast_nonneg _) h1)
      _ = ((allSequences nf nt dl.sequenceLength dl.forecastDays).length : Int) :=
          Int.floor_natCast _
  omega

/-- Witness for C4: on the example state (`count = 6`,
`trainRatio = 4/5`) the split index is `⌊24/5⌋ = 4`. -/
theorem c4_split_witness :
    ((createMultiDaySequences exDL4 exF exT).X_train
          ++ (createMultiDaySequences exDL4 exF exT).X_test
        = allSequences exF exT exDL4.sequenceLength exDL4.forecastDays
      ∧ (createMultiDaySequences exDL4 exF exT).y_train
          ++ (createMultiDaySequences exDL4 exF exT).y_test
        = allTargets exT exDL4.sequenceLength exDL4.forecastDays
      ∧ ((createMultiDaySequences exDL4 exF exT).X_train.length : Int)
        = Int.floor (((allSequences exF exT exDL4.sequenceLength
              exDL4.forecastDays).length : ℚ) * exDL4.trainTestSplit))
    ∧ (createMultiDaySequences exDL4 exF exT).X_train.length = 4 :=
  ⟨c4_split exDL4 exF exT (by norm_num [exDL4]) (by norm_num [exDL4]),
   by
     simp [createMultiDaySequences, exDL4, allSequences, allTargets, totalSamples, exF, exT]
     norm_num
     decide⟩

/-! ### C2: normalize/denormalize round trip -/

/-- C2: denormalizing with the parameters stored by `normalizeArray`
inverts normalization exactly, for every column; a constant column
(where the range substitutes to 1) normalizes to all zeros and
denormalizes back to the constant. -/
theorem c2_roundtrip (params : ParamsMap) (a : List ℚ) (nm : String) (c : ℚ) (n : Nat) :
    denormalizeArray (normalizeArray params a nm).1 (normalizeArray params a nm).2 nm
        = .ok a
    ∧ (normalizeArray params (List.replicate n c) nm).2 = List.replicate n 0
    ∧ denormalizeArray (normalizeArray params (List.replicate n c) nm).1
        (List.replicate n 0) nm = .ok (List.replicate n c) := by
  refine ⟨?_, ?_, ?_⟩
  · simp only [normalizeArray, denormalizeArray, List.lookup_cons_self, List.map_map]
    refine congrArg Except.ok ?_
    conv_rhs => rw [← List.map_id a]
    apply List.map_congr_left
    intro x _
    simp only [Function.comp_apply, id_eq]
    rw [div_mul_cancel₀ _ (jsOr1_ne_zero _)]
    ring
  · cases n with
    | zero => simp [normalizeArray]
    | succ k =>
      have hmin : listMin (List.replicate (k + 1) c) = c := by
        simp [listMin, List.replicate_succ, foldl_min_replicate]
      have hmax : listMax (List.replicate (k + 1) c) = c := by
        simp [listMax, List.replicate_succ, foldl_max_replicate]
      simp [normalizeArray, hmin, hmax, jsOr1]
  · cases n with
    | zero => simp [normalizeArray, denormalizeArray]
    | succ k =>
      have hmin : listMin (List.replicate (k + 1) c) = c := by
        simp [listMin, List.replicate_succ, foldl_min_replicate]
      have hmax : listMax (List.replicate (k + 1) c) = c := by
        simp [listMax, List.replicate_succ, foldl_max_replicate]
      simp [normalizeArray, denormalizeArray, hmin, hmax, jsOr1]

/-- When the series is shorter than `lookback + horizon` the window loop
runs zero times. -/
theorem allSequences_eq_nil (nf : List (List ℚ)) (nt : List ℚ) (L H : Nat)
    (h : nt.length < L + H) : allSequences nf nt L H = [] := by
  simp only [allSequences, totalSamples, List.map_eq_nil_iff, List.range_eq_nil]
  omega

/-- When the series is shorter than `lookback + horizon` the target loop
runs zero times. -/
theorem allTargets_eq_nil (nt : List ℚ) (L H : Nat)
    (h : nt.length < L + H) : allTargets nt L H = [] := by
  simp only [allTargets, totalSamples, List.map_eq_nil_iff, List.range_eq_nil]
  omega

/-! ### C5: behavior on a series too short for one window (corrected) -/

/-- Counterexample for C5 as stated: on the very example of the specification
(`N = 5`, `lookback = 60`, `horizon = 5`) the builder does not fail with
any error — it returns a result whose window and target sequences are
all empty, handing the empty arrays to the external tensor constructors. -/
theorem c5_counterexample :
    (preprocessData exShort).isOk = true
    ∧ (preprocessData exShort).toOption.map
        (fun r => ((r.2.X_train ++ r.2.X_test).length, (r.2.y_train ++ r.2.y_test).length))
      = some (0, 0) := by
  constructor
  · simp [preprocessData, exShort, exRows, Except.isOk, Except.toBool]
  · simp [preprocessData, exShort, exRows, normalizeFeaturesAux, normalizeArray,
      createMultiDaySequences, allSequences, allTargets, totalSamples]
    exact ⟨_, _, rfl, ⟨rfl, rfl⟩, rfl, rfl⟩

/-- C5 amended: when the loaded series is too short for even one
(window, target) pair, `preprocessData` raises no error at all: it
returns a dataset whose train and test windows and targets are all the
empty list (the builder produces empty tensors silently; no
InsufficientData error exists in the code). -/
theorem c5_short_series_silent (dl : DataLoader) (rows : List Row)
    (h1 : dl.data = some rows) (h2 : rows ≠ [])
    (h3 : rows.length < dl.sequenceLength + dl.forecastDays) :
    ∃ dl2 ds, preprocessData dl = .ok (dl2, ds)
      ∧ ds.X_train = [] ∧ ds.y_train = [] ∧ ds.X_test = [] ∧ ds.y_test = [] := by
  obtain ⟨r, rs, rfl⟩ := List.exists_cons_of_ne_nil h2
  simp only [preprocessData, h1, List.isEmpty_cons, Bool.false_eq_true, if_false]
  refine ⟨_, _, rfl, ?_, ?_, ?_, ?_⟩
  · simp only [createMultiDaySequences]
    rw [allSequences_eq_nil _ _ _ _ (by simpa [normalizeArray] using h3)]
    simp
  · simp only [createMultiDaySequences]
    rw [allTargets_eq_nil _ _ _ (by simpa [normalizeArray] using h3)]
    simp
  · simp only [createMultiDaySequences]
    rw [allSequences_eq_nil _ _ _ _ (by simpa [normalizeArray] using h3)]
    simp
  · simp only [createMultiDaySequences]
    rw [allTargets_eq_nil _ _ _ (by simpa [normalizeArray] using h3)]
    simp

/-- Witness for the amended C5 at the example state (`N = 5`,
`lookback = 60`, `horizon = 5`). -/
theorem c5_short_series_silent_witness :
    ∃ dl2 ds, preprocessData exShort = .ok (dl2, ds)
      ∧ ds.X_train = [] ∧ ds.y_train = [] ∧ ds.X_test = [] ∧ ds.y_test = [] :=
  c5_short_series_silent exShort exRows rfl (by decide) (by decide)

/-! ### C6: latestWindow uses stored parameters and mutates nothing -/

/-- When every feature index has stored parameters, the latest-window
normalization succeeds, producing one output array per feature. -/
theorem normalizeLatest_ok (params : ParamsMap) (features : List (List ℚ)) (index : Nat)
    (hp : ∀ i, i < features.length →
      (params.lookup ("feature_" ++ toString (index + i))).isSome = true) :
    ∃ out, normalizeLatest params features index = .ok out
      ∧ out.length = features.length := by
  induction features generalizing index with
  | nil => exact ⟨[], rfl, rfl⟩
  | cons a rest ih =>
    have h0 := hp 0 (by simp)
    rw [Nat.add_zero] at h0
    obtain ⟨p, hp0⟩ := Option.isSome_iff_exists.mp h0
    obtain ⟨out, hout, hlen⟩ := ih (index + 1) (fun i hi => by
      have h := hp (i + 1) (by simpa using hi)
      rwa [show index + (i + 1) = index + 1 + i by omega] at h)
    exact ⟨a.map (fun val => (val - p.min) / p.range) :: out,
      by simp [normalizeLatest, hp0, hout], by simp [hlen]⟩

/-- C6: on a loaded non-empty series whose feature parameters are all
recorded, `getLatestWindow` succeeds, returns the state unchanged (the
stored min/max/range of every column are untouched) and builds exactly
one window of `sequenceLength` time-steps from the stored parameters. -/
theorem c6_latest_window_frame (dl : DataLoader) (rows : List Row)
    (h1 : dl.data = some rows) (h2 : rows ≠ [])
    (hp : ∀ i, i < dl.featureColumns.length →
      (dl.normalizationParams.lookup ("feature_" ++ toString i)).isSome = true) :
    ∃ w, getLatestWindow dl = .ok (dl, w) ∧ w.length = dl.sequenceLength := by
  obtain ⟨r, rs, rfl⟩ := List.exists_cons_of_ne_nil h2
  obtain ⟨out, hout, hlen⟩ := normalizeLatest_ok dl.normalizationParams
    (dl.featureColumns.map (fun col => (jsSliceLast (r :: rs) dl.sequenceLength).map
      (fun row => (row.lookup col).getD 0))) 0
    (fun i hi => by simpa using hp i (by simpa using hi))
  simp only [getLatestWindow, h1, List.isEmpty_cons, Bool.false_eq_true, if_false, hout]
  exact ⟨_, rfl, by simp⟩

/-- Witness for C6: the stored parameters of `exDL6` say `min 0`,
`range 1`, while the current rows hold `11` and `21`; the window comes
out as `[[11], [21]]` — values far above 1, proving the stored (not
recomputed) parameters were used — and the returned state is `exDL6`
itself, so `min`/`max`/`range` are unchanged. -/
theorem c6_latest_window_frame_witness :
    (∃ w, getLatestWindow exDL6 = .ok (exDL6, w) ∧ w.length = exDL6.sequenceLength)
    ∧ getLatestWindow exDL6 = .ok (exDL6, [[11], [21]]) :=
  ⟨c6_latest_window_frame exDL6 [[(("Close"), 11)], [(("Close"), 21)]] rfl
      (by decide) (by decide),
   by
     have h : ("feature_" ++ toString 0) = ("feature_0") := rfl
     norm_num [getLatestWindow, exDL6, jsSliceLast, normalizeLatest, List.lookup, h,
       List.range_succ]⟩

/-! ### C7: ParameterNotFound behavior (corrected) -/

/-- Counterexample for C7 as stated: on a loaded state whose parameter
map is empty, `getLatestWindow` fails with the generic TypeError of
reading a property of `undefined`, not with a ParameterNotFound error
(no `Normalization parameters not found` check exists in
`getLatestWindow`). -/
theorem c7_counterexample : getLatestWindow exDL7 = .error .typeError := rfl

/-- C7 amended: `denormalizeArray` fails with the ParameterNotFound
error for a column never normalized and computes `value * range + min`
from the stored parameters otherwise; `getLatestWindow` on a state with
no recorded feature parameters fails with a generic TypeError instead of
a ParameterNotFound error. -/
theorem c7_param_errors (params : ParamsMap) (vals : List ℚ)
    (nm1 nm2 : String) (p : NormParams) (dl : DataLoader) (rows : List Row)
    (hn1 : params.lookup nm1 = none) (hn2 : params.lookup nm2 = some p)
    (h1 : dl.data = some rows) (h2 : rows ≠ []) (h3 : dl.featureColumns ≠ [])
    (h4 : dl.normalizationParams.lookup ("feature_0") = none) :
    denormalizeArray params vals nm1 = .error (.parameterNotFound nm1)
    ∧ denormalizeArray params vals nm2
        = .ok (vals.map (fun val => val * p.range + p.min))
    ∧ getLatestWindow dl = .error .typeError := by
  refine ⟨by simp [denormalizeArray, hn1], by simp [denormalizeArray, hn2], ?_⟩
  obtain ⟨r, rs, rfl⟩ := List.exists_cons_of_ne_nil h2
  obtain ⟨c, cs, hfc⟩ := List.exists_cons_of_ne_nil h3
  have hs : jsSliceLast (r :: rs) dl.sequenceLength ≠ [] := by
    unfold jsSliceLast
    split
    · simp
    · rw [Ne, List.drop_eq_nil_iff]
      simp
      omega
  obtain ⟨b, bs, hb⟩ := List.exists_cons_of_ne_nil hs
  have hstr : ("feature_" ++ toString 0) = ("feature_0") := rfl
  simp [getLatestWindow, h1, hfc, normalizeLatest, hstr, h4, hb]

/-- Witness for the amended C7: stored parameters for column `k` only;
`missing` raises ParameterNotFound, `k` denormalizes by
`val * 2 + 1`, and `getLatestWindow` on the parameterless state `exDL7`
raises the TypeError. -/
theorem c7_param_errors_witness :
    denormalizeArray [(("k"), ⟨1, 3, 2⟩)] [0, 1/2] ("missing")
        = .error (.parameterNotFound ("missing"))
    ∧ denormalizeArray [(("k"), ⟨1, 3, 2⟩)] [0, 1/2] ("k")
        = .ok ([0, 1/2].map (fun val => val * (⟨1, 3, 2⟩ : NormParams).range
            + (⟨1, 3, 2⟩ : NormParams).min))
    ∧ getLatestWindow exDL7 = .error .typeError :=
  c7_param_errors [(("k"), ⟨1, 3, 2⟩)] [0, 1/2] ("missing") ("k") ⟨1, 3, 2⟩ exDL7
    [[(("Close"), 5)]] (by decide) (by decide) rfl (by decide) (by decide) (by decide)

/-! ### C8: behavior on empty or not-yet-loaded data (corrected) -/

/-- Counterexample for C8 as stated: `getStats` on a loaded-but-empty
row sequence returns `null` (`none`) — a silent non-error result, not a
NoDataLoaded error. -/
theorem c8_counterexample : getStats exEmpty = none := rfl

/-- C8 amended: on an empty or not-yet-loaded row sequence,
`preprocessData` and `getLatestWindow` fail with the NoDataLoaded error,
but `getStats` returns `null` silently instead of erroring. -/
theorem c8_empty_data (dl : DataLoader)
    (h : dl.data = none ∨ dl.data = some []) :
    preprocessData dl = .error .noDataLoaded
    ∧ getLatestWindow dl = .error .noDataLoaded
    ∧ getStats dl = none := by
  rcases h with h | h <;> simp [preprocessData, getLatestWindow, getStats, h]

/-- Witness for the amended C8 at the loaded-but-empty state. -/
theorem c8_empty_data_witness :
    preprocessData exEmpty = .error .noDataLoaded
    ∧ getLatestWindow exEmpty = .error .noDataLoaded
    ∧ getStats exEmpty = none :=
  c8_empty_data exEmpty (Or.inr rfl)

/-! ### C9: per-column parameters, keyed and independent -/

/-- C9: `normalizeArray` stores exactly the min/max/range of its own
column under the given key, leaves the stored parameters of every other key
unchanged, and `preprocessData` normalizes the target column separately
under its own key `target`, so denormalizing predictions uses only the
scale of the target column alone. -/
theorem c9_per_column_params (params : ParamsMap) (a : List ℚ) (nm other : String)
    (dl : DataLoader) (rows : List Row)
    (hne : other ≠ nm) (h1 : dl.data = some rows) (h2 : rows ≠ []) :
    (normalizeArray params a nm).1.lookup nm
        = some ⟨listMin a, listMax a, jsOr1 (listMax a - listMin a)⟩
    ∧ (normalizeArray params a nm).1.lookup other = params.lookup other
    ∧ ∃ dl2 ds, preprocessData dl = .ok (dl2, ds)
        ∧ dl2.normalizationParams.lookup ("target")
          = some ⟨listMin (rows.map (fun row => (row.lookup dl.targetColumn).getD 0)),
              listMax (rows.map (fun row => (row.lookup dl.targetColumn).getD 0)),
              jsOr1 (listMax (rows.map (fun row => (row.lookup dl.targetColumn).getD 0))
                - listMin (rows.map (fun row => (row.lookup dl.targetColumn).getD 0)))⟩ := by
  refine ⟨by simp [normalizeArray], ?_, ?_⟩
  · have hbeq : (other == nm) = false := beq_eq_false_iff_ne.mpr hne
    simp [normalizeArray, List.lookup_cons, hbeq]
  · obtain ⟨r, rs, rfl⟩ := List.exists_cons_of_ne_nil h2
    simp only [preprocessData, h1, List.isEmpty_cons, Bool.false_eq_true, if_false]
    exact ⟨_, _, rfl, by simp [normalizeArray]⟩

/-- Witness for C9: normalizing `[1, 2]` under `x` stores
`{min 1, max 2, range 1}` at `x`, leaves `y` absent, and preprocessing
`exDL9` stores the own min/max of the target column under `target`. -/
theorem c9_per_column_params_witness :
    (normalizeArray [] [1, 2] ("x")).1.lookup ("x")
        = some ⟨listMin [1, 2], listMax [1, 2], jsOr1 (listMax [1, 2] - listMin [1, 2])⟩
    ∧ (normalizeArray [] [1, 2] ("x")).1.lookup ("y") = List.lookup ("y") []
    ∧ ∃ dl2 ds, preprocessData exDL9 = .ok (dl2, ds)
        ∧ dl2.normalizationParams.lookup ("target")
          = some ⟨listMin ([[(("Close"), 1)], [(("Close"), 3)]].map
                (fun row => (row.lookup exDL9.targetColumn).getD 0)),
              listMax ([[(("Close"), 1)], [(("Close"), 3)]].map
                (fun row => (row.lookup exDL9.targetColumn).getD 0)),
              jsOr1 (listMax ([[(("Close"), 1)], [(("Close"), 3)]].map
                  (fun row => (row.lookup exDL9.targetColumn).getD 0))
                - listMin ([[(("Close"), 1)], [(("Close"), 3)]].map
                  (fun row => (row.lookup exDL9.targetColumn).getD 0)))⟩ :=
  c9_per_column_params [] [1, 2] ("x") ("y") exDL9 [[(("Close"), 1)], [(("Close"), 3)]]
    (by decide) rfl (by decide)

/-! ### C10: single-column CSV parsing keeps exactly the positive values -/

/-- Generalization of the single-column parse over the starting line
index: the kept `Close` values are exactly the successfully parsed
values that are strictly positive, in input order. -/
theorem parseSingle_aux (ls : List (Option ℚ)) (n : Nat) :
    (((ls.enumFrom n).filterMap (fun p =>
        match p.2 with
        | some value =>
          if 0 < value then some (⟨value, "Day " ++ toString p.1⟩ : PriceRow) else none
        | none => none)).map PriceRow.close)
      = (ls.filterMap id).filter (fun x => decide (0 < x)) := by
  induction ls generalizing n with
  | nil => rfl
  | cons a tl ih =>
    cases a with
    | none => simpa [List.enumFrom_cons] using ih (n + 1)
    | some x =>
      by_cases hx : 0 < x
      · simp [List.enumFrom_cons, hx, ih (n + 1)]
      · simp [List.enumFrom_cons, hx, ih (n + 1)]

/-- C10: the single-column branch of `parseCSV` keeps exactly those
lines whose value parses (`some`) to a number strictly greater than 0,
in input order; non-numeric, zero and negative lines are dropped without
any error (the function is total and returns a plain row list). -/
theorem c10_parse_positive (parsedLines : List (Option ℚ)) :
    (parseSingleColumnRows parsedLines).map PriceRow.close
      = (parsedLines.filterMap id).filter (fun x => decide (0 < x)) :=
  parseSingle_aux parsedLines 1

end DataLoaderModel
